import Mathlib

/-!
Verification of the sitg backend-api core against its specification.

The Rust sources under `backend-api/src` are shallowly embedded: database
tables become lists of row structures, SQL statements become pure functions
on those lists, `chrono` timestamps become `Int` unix times, `Decimal` wei
amounts become `Int`, uuids become `Nat` identifiers (except in the
byte-level uuid encoders, where a uuid is its 16-byte array), and the
outbound crypto / RPC calls (`HMAC-SHA256` comparison, EIP-712 ECDSA
recovery, the stake RPC) become oracle parameters, since their outputs are
opaque inputs to the control flow being verified.
-/

set_option maxRecDepth 8192

namespace Sitg

/-- Error taxonomy from `error.rs` (`ApiError`); `Db`/`Internal` collapse to one
constructor since the embedding does not model storage faults beyond the
oracle flags that surface them. -/
inductive ApiError where
  | Unauthenticated
  | Forbidden
  | NotFound
  | Validation (msg : String)
  | PriceUnavailable
  | Conflict (reason : String)
  | Internal
deriving Repr, DecidableEq

instance {ε α : Type} [DecidableEq ε] [DecidableEq α] : DecidableEq (Except ε α) := by
  intro a b
  cases a <;> cases b
  case error.error e1 e2 =>
    exact if h : e1 = e2 then .isTrue (by rw [h]) else .isFalse (by simpa using h)
  case ok.ok v1 v2 =>
    exact if h : v1 = v2 then .isTrue (by rw [h]) else .isFalse (by simpa using h)
  case error.ok e v => exact .isFalse (by simp)
  case ok.error v e => exact .isFalse (by simp)

/-! ### Byte/string helpers shared by the embeddings -/

/-- Lowercase hex digit table, as produced by `hex::encode`. -/
def hexDigitChar : Nat → Char
  | 0 => '0' | 1 => '1' | 2 => '2' | 3 => '3' | 4 => '4'
  | 5 => '5' | 6 => '6' | 7 => '7' | 8 => '8' | 9 => '9'
  | 10 => 'a' | 11 => 'b' | 12 => 'c' | 13 => 'd' | 14 => 'e' | 15 => 'f'
  | _ => '?'

/-- One byte to its two lowercase hex characters. -/
def byteToHexChars (b : Nat) : List Char :=
  [hexDigitChar (b / 16), hexDigitChar (b % 16)]

/-- `hex::encode` over a byte list, as a character list. -/
def hexEncodeChars : List Nat → List Char
  | [] => []
  | b :: bs => byteToHexChars b ++ hexEncodeChars bs

/-- `hex::encode` over a byte list. -/
def hexEncode (bs : List Nat) : String :=
  String.mk (hexEncodeChars bs)

/-- Value of a hex character (both cases), `none` for non-hex input. -/
def hexCharVal? (c : Char) : Option Nat :=
  if 48 ≤ c.toNat ∧ c.toNat ≤ 57 then some (c.toNat - 48)
  else if 97 ≤ c.toNat ∧ c.toNat ≤ 102 then some (c.toNat - 87)
  else if 65 ≤ c.toNat ∧ c.toNat ≤ 70 then some (c.toNat - 55)
  else none

/-- Radix-16 string parse (`BigUint::parse_bytes(_, 16)` on a char list). -/
def parseHexNat? (cs : List Char) : Option Nat :=
  cs.foldl
    (fun acc c =>
      match acc, hexCharVal? c with
      | some a, some v => some (a * 16 + v)
      | _, _ => none)
    (some 0)

/-- Big-endian byte-list value: the integer a byte string denotes. -/
def beBytesToNat (bs : List Nat) : Nat :=
  bs.foldl (fun acc b => acc * 256 + b) 0

/-- Fuelled little-endian base-10 digit extraction (structural, so that the
kernel can evaluate it on witnesses). -/
def decDigitsAux : Nat → Nat → List Nat
  | 0, _ => []
  | _ + 1, 0 => []
  | fuel + 1, n + 1 => ((n + 1) % 10) :: decDigitsAux fuel ((n + 1) / 10)

/-- Little-endian base-10 digits of `n`. -/
def decDigitsLE (n : Nat) : List Nat :=
  decDigitsAux n n

/-- Little-endian base-10 digit list back to the number it denotes. -/
def ofDecDigits : List Nat → Nat
  | [] => 0
  | d :: ds => d + 10 * ofDecDigits ds

/-- Decimal digit to its character. -/
def decDigitChar : Nat → Char
  | 0 => '0' | 1 => '1' | 2 => '2' | 3 => '3' | 4 => '4'
  | 5 => '5' | 6 => '6' | 7 => '7' | 8 => '8' | 9 => '9'
  | _ => '?'

/-- Base-10 rendering of an unsigned big integer (`BigUint::to_string`). -/
def decimalString (n : Nat) : String :=
  if n = 0 then "0" else String.mk ((decDigitsLE n).reverse.map decDigitChar)

/-! ### `signature_service.rs`: uuid encoders for the EIP-712 payload -/

/-- `uuid_to_bytes32_hex`, byte level: `let mut bytes = [0u8; 32];
bytes[16..].copy_from_slice(id.as_bytes())` — the uuid occupies the last 16
bytes of the 32-byte value. -/
def uuid_to_bytes32 (id : List Nat) : List Nat :=
  List.replicate 16 0 ++ id

/-- `uuid_to_bytes32_hex`: `format!("0x{}", hex::encode(bytes))`. -/
def uuid_to_bytes32_hex (id : List Nat) : String :=
  "0x" ++ hexEncode (uuid_to_bytes32 id)

/-- `uuid_to_uint256_decimal`, numeric part: parse the 64 hex characters of
the padded value back as a base-16 big integer (`BigUint::parse_bytes`),
defaulting to 0 as in the source's `unwrap_or_else`. -/
def uuid_to_uint256 (id : List Nat) : Nat :=
  (parseHexNat? (hexEncodeChars (uuid_to_bytes32 id))).getD 0

/-- `uuid_to_uint256_decimal`: the decimal rendering of the parsed value. -/
def uuid_to_uint256_decimal (id : List Nat) : String :=
  decimalString (uuid_to_uint256 id)

/-- Modelled from the spec: the spec sentence "the challenge's unique
identifier right-padded into a 32-byte value" — the uuid first, zero bytes
appended after it.  Stated only to compare with the source's
`uuid_to_bytes32`. -/
def spec_right_padded_bytes32 (id : List Nat) : List Nat :=
  id ++ List.replicate 16 0

/-- A well-formed uuid byte array: 16 bytes, each below 256. -/
def IsUuidBytes (id : List Nat) : Prop :=
  id.length = 16 ∧ ∀ b ∈ id, b < 256

instance (id : List Nat) : Decidable (IsUuidBytes id) := by
  unfold IsUuidBytes; infer_instance

/-- Decimal digit character back to its value. -/
def decodeDecChar (c : Char) : Nat :=
  c.toNat - 48

/-- Folding step used by `parseHexNat?`. -/
def parseHexStep (acc : Option Nat) (c : Char) : Option Nat :=
  match acc, hexCharVal? c with
  | some a, some v => some (a * 16 + v)
  | _, _ => none

theorem parseHexNat_eq_foldl (cs : List Char) :
    parseHexNat? cs = cs.foldl parseHexStep (some 0) := rfl

theorem hexCharVal_hexDigitChar : ∀ n, n < 16 → hexCharVal? (hexDigitChar n) = some n := by
  decide

theorem foldl_parseHexStep_byte (acc : Nat) (b : Nat) (hb : b < 256) (cs : List Char) :
    List.foldl parseHexStep (some acc) (byteToHexChars b ++ cs) =
      List.foldl parseHexStep (some (acc * 256 + b)) cs := by
  have h1 : b / 16 < 16 := by omega
  have h2 : b % 16 < 16 := by omega
  have e1 : parseHexStep (some acc) (hexDigitChar (b / 16)) = some (acc * 16 + b / 16) := by
    simp [parseHexStep, hexCharVal_hexDigitChar _ h1]
  have e2 : parseHexStep (some (acc * 16 + b / 16)) (hexDigitChar (b % 16)) =
      some ((acc * 16 + b / 16) * 16 + b % 16) := by
    simp [parseHexStep, hexCharVal_hexDigitChar _ h2]
  have e3 : (acc * 16 + b / 16) * 16 + b % 16 = acc * 256 + b := by omega
  simp [byteToHexChars, e1, e2, e3]

theorem foldl_parseHexStep_bytes (bs : List Nat) (h : ∀ b ∈ bs, b < 256) (acc : Nat) :
    List.foldl parseHexStep (some acc) (hexEncodeChars bs) =
      some (bs.foldl (fun a b => a * 256 + b) acc) := by
  induction bs generalizing acc with
  | nil => rfl
  | cons b bs ih =>
    have hb : b < 256 := h b (by simp)
    have hrest : ∀ x ∈ bs, x < 256 := fun x hx => h x (by simp [hx])
    rw [hexEncodeChars, foldl_parseHexStep_byte acc b hb, ih hrest]
    rfl

theorem parseHexNat_hexEncodeChars (bs : List Nat) (h : ∀ b ∈ bs, b < 256) :
    parseHexNat? (hexEncodeChars bs) = some (beBytesToNat bs) := by
  rw [parseHexNat_eq_foldl, foldl_parseHexStep_bytes bs h 0]
  rfl

theorem beBytes_foldl_acc (bs : List Nat) (acc : Nat) :
    bs.foldl (fun a b => a * 256 + b) acc = acc * 256 ^ bs.length + beBytesToNat bs := by
  induction bs generalizing acc with
  | nil => simp [beBytesToNat]
  | cons b bs ih =>
    have hcons : beBytesToNat (b :: bs) = b * 256 ^ bs.length + beBytesToNat bs := by
      show List.foldl (fun a b => a * 256 + b) (0 * 256 + b) bs = _
      rw [ih]
      ring_nf
    rw [List.foldl_cons, ih (acc * 256 + b), hcons, List.length_cons]
    ring

theorem beBytesToNat_lt (bs : List Nat) (h : ∀ b ∈ bs, b < 256) :
    beBytesToNat bs < 256 ^ bs.length := by
  induction bs with
  | nil => simp [beBytesToNat]
  | cons b bs ih =>
    have hb : b < 256 := h b (by simp)
    have hrest : ∀ x ∈ bs, x < 256 := fun x hx => h x (by simp [hx])
    have hcons : beBytesToNat (b :: bs) = b * 256 ^ bs.length + beBytesToNat bs := by
      show List.foldl (fun a b => a * 256 + b) (0 * 256 + b) bs = _
      rw [beBytes_foldl_acc]
      ring_nf
    have htail := ih hrest
    have : b * 256 ^ bs.length + beBytesToNat bs < (b + 1) * 256 ^ bs.length := by
      have := Nat.pos_pow_of_pos (n := 256) bs.length (by norm_num)
      nlinarith
    calc beBytesToNat (b :: bs) = b * 256 ^ bs.length + beBytesToNat bs := hcons
      _ < (b + 1) * 256 ^ bs.length := this
      _ ≤ 256 * 256 ^ bs.length := by
          have : b + 1 ≤ 256 := hb
          exact Nat.mul_le_mul_right _ this
      _ = 256 ^ (b :: bs).length := by rw [List.length_cons]; ring

theorem beBytesToNat_cons (a : Nat) (as : List Nat) :
    beBytesToNat (a :: as) = a * 256 ^ as.length + beBytesToNat as := by
  show List.foldl (fun x y => x * 256 + y) (0 * 256 + a) as = _
  rw [beBytes_foldl_acc]
  ring_nf

theorem beBytesToNat_inj : ∀ bs1 bs2 : List Nat, bs1.length = bs2.length →
    (∀ b ∈ bs1, b < 256) → (∀ b ∈ bs2, b < 256) →
    beBytesToNat bs1 = beBytesToNat bs2 → bs1 = bs2 := by
  intro bs1
  induction bs1 with
  | nil =>
    intro bs2 hlen _ _ _
    cases bs2 with
    | nil => rfl
    | cons b bs => simp at hlen
  | cons a as ih =>
    intro bs2 hlen h1 h2 heq
    cases bs2 with
    | nil => simp at hlen
    | cons b bs =>
      have hlen2 : as.length = bs.length := by simpa using hlen
      have has : ∀ x ∈ as, x < 256 := fun x hx => h1 x (by simp [hx])
      have hbs : ∀ x ∈ bs, x < 256 := fun x hx => h2 x (by simp [hx])
      have hta := beBytesToNat_lt as has
      have htb := beBytesToNat_lt bs hbs
      rw [beBytesToNat_cons, beBytesToNat_cons, ← hlen2] at heq
      have hP : 0 < 256 ^ as.length := Nat.pos_pow_of_pos _ (by norm_num)
      have htb2 : beBytesToNat bs < 256 ^ as.length := by rwa [hlen2]
      have hhead : a = b := by
        have da : (a * 256 ^ as.length + beBytesToNat as) / 256 ^ as.length = a := by
          rw [Nat.add_comm, Nat.add_mul_div_right _ _ hP, Nat.div_eq_of_lt hta, Nat.zero_add]
        have db : (b * 256 ^ as.length + beBytesToNat bs) / 256 ^ as.length = b := by
          rw [Nat.add_comm, Nat.add_mul_div_right _ _ hP, Nat.div_eq_of_lt htb2, Nat.zero_add]
        rw [← da, ← db, heq]
      have htails : beBytesToNat as = beBytesToNat bs := by
        have ma : (a * 256 ^ as.length + beBytesToNat as) % 256 ^ as.length =
            beBytesToNat as := by
          rw [Nat.add_comm, Nat.add_mul_mod_self_right, Nat.mod_eq_of_lt hta]
        have mb : (b * 256 ^ as.length + beBytesToNat bs) % 256 ^ as.length =
            beBytesToNat bs := by
          rw [Nat.add_comm, Nat.add_mul_mod_self_right, Nat.mod_eq_of_lt htb2]
        rw [← ma, ← mb, heq]
      rw [hhead, ih bs hlen2 has hbs htails]

theorem ofDecDigits_decDigitsAux : ∀ fuel n, n ≤ fuel →
    ofDecDigits (decDigitsAux fuel n) = n := by
  intro fuel
  induction fuel with
  | zero =>
    intro n hn
    interval_cases n
    rfl
  | succ fuel ih =>
    intro n hn
    cases n with
    | zero => rfl
    | succ m =>
      have hdiv : (m + 1) / 10 ≤ fuel := by
        have := Nat.div_lt_self (Nat.succ_pos m) (by norm_num : 1 < 10)
        omega
      rw [decDigitsAux, ofDecDigits, ih _ hdiv]
      omega

theorem ofDecDigits_decDigitsLE (n : Nat) : ofDecDigits (decDigitsLE n) = n :=
  ofDecDigits_decDigitsAux n n le_rfl

theorem decDigitsAux_lt_ten : ∀ fuel n d, d ∈ decDigitsAux fuel n → d < 10 := by
  intro fuel
  induction fuel with
  | zero => intro n d hd; simp [decDigitsAux] at hd
  | succ fuel ih =>
    intro n d hd
    cases n with
    | zero => simp [decDigitsAux] at hd
    | succ m =>
      rw [decDigitsAux] at hd
      rcases List.mem_cons.mp hd with h | h
      · omega
      · exact ih _ _ h

theorem decodeDecChar_decDigitChar : ∀ d, d < 10 → decodeDecChar (decDigitChar d) = d := by
  decide

theorem map_decode_decDigitChar (l : List Nat) (h : ∀ d ∈ l, d < 10) :
    (l.map decDigitChar).map decodeDecChar = l := by
  induction l with
  | nil => rfl
  | cons d ds ih =>
    have hd : d < 10 := h d (by simp)
    have hds : ∀ x ∈ ds, x < 10 := fun x hx => h x (by simp [hx])
    simp [decodeDecChar_decDigitChar d hd, ih hds]

theorem decDigitsLE_lt_ten (n : Nat) : ∀ d ∈ decDigitsLE n, d < 10 :=
  fun d hd => decDigitsAux_lt_ten n n d hd

theorem decimalString_inj (a b : Nat) (h : decimalString a = decimalString b) : a = b := by
  unfold decimalString at h
  by_cases ha : a = 0 <;> by_cases hb : b = 0
  · omega
  · rw [if_pos ha, if_neg hb] at h
    have hdata : ("0" : String).data = ((decDigitsLE b).reverse.map decDigitChar) :=
      congrArg String.data h
    have hchars : ['0'] = (decDigitsLE b).reverse.map decDigitChar := hdata
    have hdec : [0] = (decDigitsLE b).reverse := by
      have := congrArg (List.map decodeDecChar) hchars
      rw [map_decode_decDigitChar _ (fun d hd =>
        decDigitsLE_lt_ten b d (List.mem_reverse.mp hd))] at this
      simpa [decodeDecChar] using this
    have hrev : decDigitsLE b = [0] := by
      have := congrArg List.reverse hdec
      simpa using this.symm
    have := ofDecDigits_decDigitsLE b
    rw [hrev] at this
    simp [ofDecDigits] at this
    omega
  · rw [if_neg ha, if_pos hb] at h
    have hdata : ((decDigitsLE a).reverse.map decDigitChar) = ("0" : String).data :=
      congrArg String.data h
    have hchars : (decDigitsLE a).reverse.map decDigitChar = ['0'] := hdata
    have hdec : (decDigitsLE a).reverse = [0] := by
      have := congrArg (List.map decodeDecChar) hchars
      rw [map_decode_decDigitChar _ (fun d hd =>
        decDigitsLE_lt_ten a d (List.mem_reverse.mp hd))] at this
      simpa [decodeDecChar] using this
    have hrev : decDigitsLE a = [0] := by
      have := congrArg List.reverse hdec
      simpa using this
    have := ofDecDigits_decDigitsLE a
    rw [hrev] at this
    simp [ofDecDigits] at this
    omega
  · rw [if_neg ha, if_neg hb] at h
    have hdata := congrArg String.data h
    have hchars : (decDigitsLE a).reverse.map decDigitChar =
        (decDigitsLE b).reverse.map decDigitChar := hdata
    have hda := congrArg (List.map decodeDecChar) hchars
    rw [map_decode_decDigitChar _ (fun d hd =>
        decDigitsLE_lt_ten a d (List.mem_reverse.mp hd)),
      map_decode_decDigitChar _ (fun d hd =>
        decDigitsLE_lt_ten b d (List.mem_reverse.mp hd))] at hda
    have hdigits : decDigitsLE a = decDigitsLE b := by
      have := congrArg List.reverse hda
      simpa using this
    rw [← ofDecDigits_decDigitsLE a, ← ofDecDigits_decDigitsLE b, hdigits]

theorem uuid_to_bytes32_bounds (id : List Nat) (h : IsUuidBytes id) :
    (∀ b ∈ uuid_to_bytes32 id, b < 256) ∧ (uuid_to_bytes32 id).length = 32 := by
  obtain ⟨hlen, hbound⟩ := h
  constructor
  · intro b hb
    rcases List.mem_append.mp hb with h0 | h1
    · have := List.eq_of_mem_replicate h0
      omega
    · exact hbound b h1
  · simp [uuid_to_bytes32, hlen]

theorem uuid_to_uint256_eq_beBytes (id : List Nat) (h : IsUuidBytes id) :
    uuid_to_uint256 id = beBytesToNat id := by
  obtain ⟨hb, _⟩ := uuid_to_bytes32_bounds id h
  unfold uuid_to_uint256
  rw [parseHexNat_hexEncodeChars _ hb, Option.getD_some]
  show beBytesToNat (List.replicate 16 0 ++ id) = beBytesToNat id
  unfold beBytesToNat
  rw [List.foldl_append]
  have hzero : List.foldl (fun acc b => acc * 256 + b) 0 (List.replicate 16 0) = 0 := by
    decide
  rw [hzero]

theorem uuid_to_bytes32_hex_data (id : List Nat) :
    (uuid_to_bytes32_hex id).data = '0' :: 'x' :: hexEncodeChars (uuid_to_bytes32 id) := by
  show (("0x" : String) ++ hexEncode (uuid_to_bytes32 id)).data = _
  rw [String.data_append]
  rfl

/-- The uuid used for the C3 counterexample: byte 1 followed by fifteen 0s. -/
def exUuidC3 : List Nat :=
  1 :: List.replicate 15 0

/-- Claim C3 counterexample: the spec says the challenge uuid is
"right-padded" into the 32-byte value, i.e. the uuid bytes come first with
zero padding after them; the source's `uuid_to_bytes32_hex` instead
zero-pads on the LEFT (the uuid occupies the last 16 bytes), so at a uuid
whose first byte is 1 the two encodings disagree. -/
theorem C3_counterexample :
    uuid_to_bytes32_hex exUuidC3 ≠ "0x" ++ hexEncode (spec_right_padded_bytes32 exUuidC3) := by
  decide

/-- Claim C3 (amended): the EIP-712 payload encodes the challenge uuid
LEFT-padded into the 32-byte value (the uuid is the low-order 16 bytes,
after 16 zero bytes), not right-padded; with that amendment the rest of the
claim holds: both the `bytes32` hex encoding and the `uint256` decimal
encoding are injective on 16-byte uuids, and the numeric value is exactly
the uuid's 128-bit big-endian integer, so it fits in 256 bits with no
truncation. -/
theorem C3_theorem :
    (∀ a, IsUuidBytes a → uuid_to_bytes32 a = List.replicate 16 0 ++ a) ∧
    (∀ a b, IsUuidBytes a → IsUuidBytes b →
      uuid_to_bytes32_hex a = uuid_to_bytes32_hex b → a = b) ∧
    (∀ a b, IsUuidBytes a → IsUuidBytes b →
      uuid_to_uint256_decimal a = uuid_to_uint256_decimal b → a = b) ∧
    (∀ a, IsUuidBytes a → uuid_to_uint256 a = beBytesToNat a ∧ uuid_to_uint256 a < 2 ^ 128) := by
  refine ⟨fun a _ => rfl, ?_, ?_, ?_⟩
  · intro a b ha hb heq
    obtain ⟨hba, hla⟩ := uuid_to_bytes32_bounds a ha
    obtain ⟨hbb, hlb⟩ := uuid_to_bytes32_bounds b hb
    have hdata := congrArg String.data heq
    rw [uuid_to_bytes32_hex_data, uuid_to_bytes32_hex_data] at hdata
    have hchars : hexEncodeChars (uuid_to_bytes32 a) = hexEncodeChars (uuid_to_bytes32 b) := by
      simpa using hdata
    have hparse := parseHexNat_hexEncodeChars _ hba
    rw [hchars, parseHexNat_hexEncodeChars _ hbb] at hparse
    have hval : beBytesToNat (uuid_to_bytes32 b) = beBytesToNat (uuid_to_bytes32 a) := by
      simpa using hparse
    have hbytes := beBytesToNat_inj _ _ (by rw [hlb, hla]) hbb hba hval
    have : List.replicate 16 0 ++ b = List.replicate 16 0 ++ a := hbytes
    exact (List.append_cancel_left this).symm
  · intro a b ha hb heq
    have hval : uuid_to_uint256 a = uuid_to_uint256 b :=
      decimalString_inj _ _ heq
    rw [uuid_to_uint256_eq_beBytes a ha, uuid_to_uint256_eq_beBytes b hb] at hval
    exact beBytesToNat_inj a b (by rw [ha.1, hb.1]) ha.2 hb.2 hval
  · intro a ha
    refine ⟨uuid_to_uint256_eq_beBytes a ha, ?_⟩
    rw [uuid_to_uint256_eq_beBytes a ha]
    have := beBytesToNat_lt a ha.2
    rw [ha.1] at this
    calc beBytesToNat a < 256 ^ 16 := this
      _ = 2 ^ 128 := by norm_num

/-- Witness for C3: the amended theorem applied at the concrete uuid
`exUuidC3`. -/
theorem C3_witness :
    IsUuidBytes exUuidC3 ∧ exUuidC3 = exUuidC3 ∧ uuid_to_uint256 exUuidC3 < 2 ^ 128 :=
  ⟨by decide, C3_theorem.2.1 exUuidC3 exUuidC3 (by decide) (by decide) rfl,
    (C3_theorem.2.2.2 exUuidC3 (by decide)).2⟩

/-! ### String helpers mirroring the Rust standard library calls -/

/-- ASCII whitespace test (model of the characters `str::trim` strips). -/
def isWhitespaceChar (c : Char) : Bool :=
  c == ' ' || c == '\t' || c == '\n' || c == '\r'

/-- `str::trim`. -/
def trimModel (s : String) : String :=
  String.mk (((s.data.dropWhile isWhitespaceChar).reverse.dropWhile isWhitespaceChar).reverse)

/-- `str::to_uppercase` (ASCII model; the outcome strings compared are ASCII). -/
def toUpperAscii (s : String) : String :=
  String.mk (s.data.map Char.toUpper)

/-- `str::to_lowercase` (ASCII model). -/
def toLowerAscii (s : String) : String :=
  String.mk (s.data.map Char.toLower)

/-- `str::eq_ignore_ascii_case`. -/
def eq_ignore_ascii_case (a b : String) : Bool :=
  toLowerAscii a == toLowerAscii b

/-- `str::starts_with` on string data. -/
def startsWithModel (s pat : String) : Bool :=
  pat.data.isPrefixOf s.data

/-- `String::from` of a suffix: drop the first `n` characters. -/
def dropModel (s : String) (n : Nat) : String :=
  String.mk (s.data.drop n)

/-- Fold a digit list into a natural number, `none` on any non-digit. -/
def parseNatDigits? (cs : List Char) : Option Nat :=
  if cs.isEmpty then none
  else
    cs.foldl
      (fun acc c =>
        match acc with
        | some a => if 48 ≤ c.toNat ∧ c.toNat ≤ 57 then some (a * 10 + (c.toNat - 48)) else none
        | none => none)
      (some 0)

/-- `str::parse::<i64>()`: optional sign, decimal digits, 64-bit range. -/
def parseI64? (s : String) : Option Int :=
  match s.data with
  | '-' :: rest =>
    (parseNatDigits? rest).bind fun n =>
      if n ≤ 2 ^ 63 then some (-(n : Int)) else none
  | '+' :: rest =>
    (parseNatDigits? rest).bind fun n =>
      if n < 2 ^ 63 then some (n : Int) else none
  | l =>
    (parseNatDigits? l).bind fun n =>
      if n < 2 ^ 63 then some (n : Int) else none

/-- `hex::decode` on a char list: pairs of hex digits, `none` on odd length
or a non-hex character. -/
def hexDecodeChars? : List Char → Option (List Nat)
  | [] => some []
  | [_] => none
  | c1 :: c2 :: rest =>
    match hexCharVal? c1, hexCharVal? c2, hexDecodeChars? rest with
    | some h, some l, some bs => some ((h * 16 + l) :: bs)
    | _, _, _ => none

/-- `hex::decode`. -/
def hexDecode? (s : String) : Option (List Nat) :=
  hexDecodeChars? s.data

/-! ### Data model: the database rows the verified core touches -/

/-- Row of `user_sessions` joined with `users` as in `require_current_user`. -/
structure CurrentUserRow where
  id : Nat
  github_user_id : Int
  github_login : String
deriving Repr, DecidableEq

/-- Row of `user_sessions` (with the joined user embedded). -/
structure SessionRow where
  session_token : String
  revoked : Bool
  expires_at : Int
  user : CurrentUserRow
deriving Repr, DecidableEq

/-- Row of `pr_challenges` (`ChallengeRow` in `models/db.rs`). -/
structure ChallengeRow where
  id : Nat
  gate_token : String
  github_repo_id : Int
  github_repo_full_name : String
  github_pr_number : Int
  github_pr_author_id : Int
  github_pr_author_login : String
  head_sha : String
  threshold_wei_snapshot : Int
  deadline_at : Int
  status : String
  verified_wallet_address : Option String
  updated_at : Int
deriving Repr, DecidableEq

/-- Row of `challenge_nonces`. -/
structure ChallengeNonceRow where
  challenge_id : Nat
  nonce : Nat
  expires_at : Int
  used_at : Option Int
deriving Repr, DecidableEq

/-- Row of `wallet_links` (joined through `users` on `github_user_id`). -/
structure WalletLinkRow where
  github_user_id : Int
  wallet_address : String
  unlinked : Bool
deriving Repr, DecidableEq

/-- Row of `pr_confirmations`. -/
structure ConfirmationRow where
  id : Nat
  challenge_id : Nat
  signature : String
  signer_address : String
deriving Repr, DecidableEq

/-- Row of `repo_configs` (only the columns the verified core reads). -/
structure RepoConfigRow where
  github_repo_id : Int
  installation_id : Int
  full_name : String
deriving Repr, DecidableEq

/-- Row of `repo_whitelist`. -/
structure WhitelistRow where
  github_repo_id : Int
  github_user_id : Int
deriving Repr, DecidableEq

/-- Row of `bot_actions`. -/
structure BotActionRow where
  id : Nat
  action_type : String
  challenge_id : Option Nat
  installation_id : Int
  github_repo_id : Int
  repo_full_name : String
  github_pr_number : Int
  payload : List (String × String)
  status : String
  claimed_by : Option String
  claimed_at : Option Int
  completed_at : Option Int
  attempts : Int
  failure_code : Option String
  failure_reason : Option String
  created_at : Int
  updated_at : Int
deriving Repr, DecidableEq

/-- Row of `bot_client_keys` (joined with `bot_clients` on status). -/
structure BotKeyRow where
  key_id : String
  bot_client_id : Nat
  secret_hash : String
  active : Bool
  revoked : Bool
  client_status : String
deriving Repr, DecidableEq

/-- Row of `audit_events` (only the identifying columns). -/
structure AuditRow where
  event_type : String
  entity_type : String
  entity_id : String
deriving Repr, DecidableEq

/-- The relational store: each table the verified core touches, as a list. -/
structure Db where
  user_sessions : List SessionRow
  pr_challenges : List ChallengeRow
  challenge_nonces : List ChallengeNonceRow
  wallet_links : List WalletLinkRow
  pr_confirmations : List ConfirmationRow
  repo_configs : List RepoConfigRow
  repo_whitelist : List WhitelistRow
  bot_actions : List BotActionRow
  bot_installation_bindings : List (Nat × Int)
  bot_client_keys : List BotKeyRow
  internal_request_replays : List String
  audit_events : List AuditRow
deriving Repr, DecidableEq

/-! ### `internal_auth.rs`: HMAC internal request authentication -/

/-- `InternalAuthContext`. -/
structure InternalAuthContext where
  bot_client_id : Nat
  timestamp : Int
  signature_hex : String
deriving Repr, DecidableEq

/-- Strip the optional `sha256=` marker from the signature header
(`signature_header.strip_prefix("sha256=").unwrap_or(signature_header)`). -/
def normalizeSignatureHeader (s : String) : String :=
  if startsWithModel s "sha256=" then dropModel s 7 else s

/-- `decode_hmac_key`: require a `sha256:` marker and a 32-byte hex key. -/
def decode_hmac_key (stored_secret : String) : Except ApiError (List Nat) :=
  if startsWithModel stored_secret "sha256:" then
    match hexDecode? (dropModel stored_secret 7) with
    | none => .error .Forbidden
    | some bytes => if bytes.length ≠ 32 then .error .Forbidden else .ok bytes
  else .error .Forbidden

/-- `verify_hmac`: decode the stored key and compare the MAC over
`"{timestamp}.{message}"`.  The MAC computation/comparison itself is the
oracle `hmacEq key timestamp message signature`. -/
def verify_hmac (hmacEq : List Nat → Int → String → List Nat → Bool)
    (stored_secret : String) (timestamp : Int) (message : String)
    (signature : List Nat) : Except ApiError Unit :=
  match decode_hmac_key stored_secret with
  | .error e => .error e
  | .ok key => if hmacEq key timestamp message signature then .ok () else .error .Forbidden

/-- `verify_internal_request`: timestamp parse and ±300 s window, signature
normalisation and hex decode, active-key lookup, HMAC check. -/
def verify_internal_request (hmacEq : List Nat → Int → String → List Nat → Bool)
    (now : Int) (keys : List BotKeyRow)
    (key_id timestamp_str signature_header message : String) :
    Except ApiError InternalAuthContext :=
  match parseI64? timestamp_str with
  | none => .error .Forbidden
  | some timestamp =>
    if (now - timestamp).natAbs > 300 then .error .Forbidden
    else
      match hexDecode? (normalizeSignatureHeader signature_header) with
      | none => .error .Forbidden
      | some signature =>
        match keys.find? (fun k =>
            k.key_id == key_id && k.active && !k.revoked && k.client_status == "ACTIVE") with
        | none => .error .Forbidden
        | some k =>
          match verify_hmac hmacEq k.secret_hash timestamp message signature with
          | .error e => .error e
          | .ok _ => .ok ⟨k.bot_client_id, timestamp, normalizeSignatureHeader signature_header⟩

/-- `store_internal_replay`: `insert ... on conflict (signature) do nothing`;
zero rows affected (the value was already present) is rejected. -/
def store_internal_replay (st : Db) (signature_hex : String) :
    Except ApiError Unit × Db :=
  if signature_hex ∈ st.internal_request_replays then (.error .Forbidden, st)
  else (.ok (),
    { st with internal_request_replays := st.internal_request_replays ++ [signature_hex] })

/-- The mandatory two-step every internal route performs:
`verify_internal_from_headers` followed by `store_internal_replay`. -/
def internal_auth_and_replay (hmacEq : List Nat → Int → String → List Nat → Bool)
    (now : Int) (st : Db) (key_id timestamp_str signature_header message : String) :
    Except ApiError InternalAuthContext × Db :=
  match verify_internal_request hmacEq now st.bot_client_keys
      key_id timestamp_str signature_header message with
  | .error e => (.error e, st)
  | .ok ctx =>
    match store_internal_replay st ctx.signature_hex with
    | (.error e, st1) => (.error e, st1)
    | (.ok _, st1) => (.ok ctx, st1)

theorem decode_hmac_key_error_forbidden (stored_secret : String) (e : ApiError)
    (h : decode_hmac_key stored_secret = .error e) : e = .Forbidden := by
  unfold decode_hmac_key at h
  repeat' split at h
  all_goals first
    | (injection h with h1; exact h1.symm)
    | exact absurd h (by simp)

theorem verify_hmac_error_forbidden (hmacEq : List Nat → Int → String → List Nat → Bool)
    (stored_secret : String) (timestamp : Int) (message : String)
    (signature : List Nat) (e : ApiError)
    (h : verify_hmac hmacEq stored_secret timestamp message signature = .error e) :
    e = .Forbidden := by
  unfold verify_hmac at h
  split at h
  · rename_i e1 hkey
    injection h with h1
    exact h1 ▸ decode_hmac_key_error_forbidden _ _ hkey
  · split at h
    · exact absurd h (by simp)
    · injection h with h1; exact h1.symm

theorem verify_internal_request_error_forbidden
    (hmacEq : List Nat → Int → String → List Nat → Bool) (now : Int)
    (keys : List BotKeyRow) (key_id ts sig msg : String) (e : ApiError)
    (h : verify_internal_request hmacEq now keys key_id ts sig msg = .error e) :
    e = .Forbidden := by
  unfold verify_internal_request at h
  split at h
  · injection h with h1; exact h1.symm
  · split at h
    · injection h with h1; exact h1.symm
    · split at h
      · injection h with h1; exact h1.symm
      · split at h
        · injection h with h1; exact h1.symm
        · split at h
          · rename_i hmac
            injection h with h1
            subst h1
            exact verify_hmac_error_forbidden _ _ _ _ _ _ hmac
          · exact absurd h (by simp)

theorem verify_internal_request_ok_signature
    (hmacEq : List Nat → Int → String → List Nat → Bool) (now : Int)
    (keys : List BotKeyRow) (key_id ts sig msg : String) (ctx : InternalAuthContext)
    (h : verify_internal_request hmacEq now keys key_id ts sig msg = .ok ctx) :
    ctx.signature_hex = normalizeSignatureHeader sig := by
  unfold verify_internal_request at h
  split at h
  · exact absurd h (by simp)
  · split at h
    · exact absurd h (by simp)
    · split at h
      · exact absurd h (by simp)
      · split at h
        · exact absurd h (by simp)
        · split at h
          · exact absurd h (by simp)
          · injection h with h1
            rw [← h1]

/-- Claim C5: after a successful HMAC authentication the accepted signature
value is inserted into the replay store, and any later internal request
carrying the same signature value — in particular a resubmission of the
same `(key, timestamp, message)` triple, even inside the valid timestamp
window — is rejected with the Forbidden response `AuthReplayed` maps to, so
the same internal-auth signature succeeds at most once. -/
theorem C5_theorem (hmacEq : List Nat → Int → String → List Nat → Bool)
    (now1 : Int) (st st1 : Db) (k ts sig msg : String) (ctx : InternalAuthContext)
    (h : internal_auth_and_replay hmacEq now1 st k ts sig msg = (.ok ctx, st1)) :
    ctx.signature_hex ∈ st1.internal_request_replays ∧
    ∀ (now2 : Int) (k2 ts2 sig2 msg2 : String),
      normalizeSignatureHeader sig2 = ctx.signature_hex →
      (internal_auth_and_replay hmacEq now2 st1 k2 ts2 sig2 msg2).1 = .error .Forbidden := by
  unfold internal_auth_and_replay at h
  split at h
  · exact absurd h (by simp)
  · rename_i ctx0 hv
    split at h
    · exact absurd h (by simp)
    · rename_i u st2 hst
      have hctx : ctx0 = ctx := by
        have := congrArg Prod.fst h
        simpa using this
      have hst1 : st2 = st1 := by
        have := congrArg Prod.snd h
        simpa using this
      rw [← hctx, ← hst1]
      unfold store_internal_replay at hst
      split at hst
      · exact absurd hst (by simp)
      · rename_i hmem
        have hst2eq : st2 =
            { st with internal_request_replays :=
                st.internal_request_replays ++ [ctx0.signature_hex] } := by
          have := congrArg Prod.snd hst
          simpa using this.symm
        have hmem1 : ctx0.signature_hex ∈ st2.internal_request_replays := by
          rw [hst2eq]
          simp
        refine ⟨hmem1, ?_⟩
        intro now2 k2 ts2 sig2 msg2 hsig2
        unfold internal_auth_and_replay
        split
        · rename_i e hv2
          have := verify_internal_request_error_forbidden _ _ _ _ _ _ _ _ hv2
          simp [this]
        · rename_i ctx2 hv2
          have hsig : ctx2.signature_hex = ctx0.signature_hex := by
            rw [verify_internal_request_ok_signature _ _ _ _ _ _ _ _ hv2, hsig2]
          split
          · rename_i e st3 hst3
            unfold store_internal_replay at hst3
            split at hst3
            · have := congrArg Prod.fst hst3
              simpa using this.symm
            · rename_i hmem2
              rw [hsig] at hmem2
              exact absurd hmem1 hmem2
          · rename_i u2 st3 hst3
            unfold store_internal_replay at hst3
            split at hst3
            · exact absurd hst3 (by simp)
            · rename_i hmem2
              rw [hsig] at hmem2
              exact absurd hmem1 hmem2

/-- HMAC oracle that accepts everything (used only for concrete witnesses). -/
def hmacAlways : List Nat → Int → String → List Nat → Bool :=
  fun _ _ _ _ => true

/-- Empty database. -/
def emptyDb : Db :=
  { user_sessions := [], pr_challenges := [], challenge_nonces := [],
    wallet_links := [], pr_confirmations := [], repo_configs := [],
    repo_whitelist := [], bot_actions := [], bot_installation_bindings := [],
    bot_client_keys := [], internal_request_replays := [], audit_events := [] }

/-- Database with one active internal-auth key for tenant 1. -/
def dbC5 : Db :=
  { emptyDb with bot_client_keys :=
      [⟨"k", 1, "sha256:" ++ hexEncode (List.replicate 32 0), true, false, "ACTIVE"⟩] }

/-- `dbC5` after the first accepted request stored its replay record. -/
def dbC5b : Db :=
  { dbC5 with internal_request_replays := ["ab"] }

/-- Witness for C5: a concrete request is accepted once and the identical
resubmission is rejected. -/
theorem C5_witness :
    (internal_auth_and_replay hmacAlways 0
      ((internal_auth_and_replay hmacAlways 0 dbC5 "k" "0" "ab" "m").2)
      "k" "0" "ab" "m").1 = .error .Forbidden := by
  have h : internal_auth_and_replay hmacAlways 0 dbC5 "k" "0" "ab" "m" =
      (.ok ⟨1, 0, "ab"⟩, dbC5b) := by decide
  rw [h]
  exact (C5_theorem hmacAlways 0 dbC5 dbC5b "k" "0" "ab" "m" ⟨1, 0, "ab"⟩ h).2
    0 "k" "0" "ab" "m" rfl

/-! ### `routes/mod.rs`: the gate confirm flow (`post_gate_confirm`) -/

/-- `require_current_user`: resolve the session cookie to an unexpired,
unrevoked session's user. -/
def require_current_user (now : Int) (st : Db) (session_cookie : Option String) :
    Except ApiError CurrentUserRow :=
  match session_cookie with
  | none => .error .Unauthenticated
  | some tok =>
    match st.user_sessions.find? (fun s =>
        s.session_token == tok && !s.revoked && decide (now < s.expires_at)) with
    | none => .error .Unauthenticated
    | some s => .ok s.user

/-- `decimal_wei_to_u128`: an integral `Decimal` parses as `u128` exactly
when it is in `[0, 2^128)`. -/
def decimal_wei_to_u128 (v : Int) : Except ApiError Nat :=
  if 0 ≤ v ∧ v < 2 ^ 128 then .ok v.toNat
  else .error (.Validation "threshold_wei out of supported range")

/-- Result of `stake_service.stake_status` (`stake_service.rs`). -/
structure StakeStatus where
  balance_wei : Nat
  unlock_time_unix : Nat
deriving Repr, DecidableEq

/-- Per-request oracle inputs of the confirm flow: the single
`Utc::now()` snapshot, the configured staking contract, the outcome of the
EIP-712 signer recovery, the outcome of the stake RPC, fresh uuids for the
inserted rows, and the storage-fault flags of the post-commit best-effort
block. -/
structure ConfirmEnv where
  now : Int
  staking_contract_address : Option String
  recover_result : Except ApiError String
  stake_result : Except ApiError StakeStatus
  fresh_confirmation_id : Nat
  fresh_action_id : Nat
  repo_lookup_fails : Bool
  enqueue_fails : Bool

/-- `queue_pr_comment_action`: `insert ... on conflict do nothing` of an
`UPSERT_PR_COMMENT` bot action; returns whether a row was inserted.
Modelled from the spec for the conflict key (the migrations are not under
`src/`): "insert-if-absent keyed by an idempotency marker unique to the
(challenge or repo+PR, action kind) combination", so the insert conflicts
exactly when a PENDING row of the same kind for the same challenge and
repo/PR already exists. -/
def queue_pr_comment_action (now : Int) (fresh_id : Nat) (st : Db)
    (challenge_id : Option Nat) (installation_id github_repo_id : Int)
    (repo_full_name : String) (github_pr_number : Int)
    (comment_markdown comment_marker reason : String) : Db × Bool :=
  if st.bot_actions.any (fun a =>
      a.status == "PENDING" && a.action_type == "UPSERT_PR_COMMENT" &&
      a.challenge_id == challenge_id && a.github_repo_id == github_repo_id &&
      a.github_pr_number == github_pr_number) then
    (st, false)
  else
    ({ st with bot_actions := st.bot_actions ++
        [{ id := fresh_id, action_type := "UPSERT_PR_COMMENT",
           challenge_id := challenge_id, installation_id := installation_id,
           github_repo_id := github_repo_id, repo_full_name := repo_full_name,
           github_pr_number := github_pr_number,
           payload := [("comment_markdown", comment_markdown),
             ("comment_marker", comment_marker), ("reason", reason)],
           status := "PENDING", claimed_by := none, claimed_at := none,
           completed_at := none, attempts := 0, failure_code := none,
           failure_reason := none, created_at := now, updated_at := now }] }, true)

/-- The conditional-update predicate of the in-transaction nonce consumption
(`update challenge_nonces set used_at = $2 where challenge_id = $1 and
used_at is null and expires_at > $2`). -/
def nonceConsumable (now : Int) (challenge_id : Nat) (n : ChallengeNonceRow) : Bool :=
  n.challenge_id == challenge_id && n.used_at == none && decide (now < n.expires_at)

/-- In-transaction nonce consumption (the `update challenge_nonces` rows). -/
def consumeNonces (now : Int) (cid : Nat) (l : List ChallengeNonceRow) :
    List ChallengeNonceRow :=
  l.map (fun n => if nonceConsumable now cid n then { n with used_at := some now } else n)

/-- `insert into pr_confirmations ... on conflict (challenge_id) do update`. -/
def upsertConfirmation (fresh cid : Nat) (signature signer : String)
    (l : List ConfirmationRow) : List ConfirmationRow :=
  if l.any (fun c => c.challenge_id == cid) then
    l.map (fun c =>
      if c.challenge_id == cid then
        { c with signature := signature, signer_address := signer }
      else c)
  else
    l ++ [⟨fresh, cid, signature, signer⟩]

/-- `update pr_challenges set status = 'VERIFIED', ... where id = $1`. -/
def setChallengeVerified (now : Int) (cid : Nat) (signer : String)
    (l : List ChallengeRow) : List ChallengeRow :=
  l.map (fun c =>
    if c.id == cid then
      { c with
        status := "VERIFIED"
        verified_wallet_address := some signer
        updated_at := now }
    else c)

/-- The post-commit best-effort block of `post_gate_confirm`: look up the
repo's installation and enqueue the "verified" comment; any failure there
(lookup error, missing config, insert error) is only logged. -/
def enqueueVerifiedComment (env : ConfirmEnv) (challenge : ChallengeRow) (st1 : Db) : Db :=
  if env.repo_lookup_fails then st1
  else
    match st1.repo_configs.find? (fun r => r.github_repo_id == challenge.github_repo_id) with
    | none => st1
    | some rc =>
      if env.enqueue_fails then st1
      else
        (queue_pr_comment_action env.now env.fresh_action_id st1 (some challenge.id)
          rc.installation_id challenge.github_repo_id challenge.github_repo_full_name
          challenge.github_pr_number "Stake verification complete. This PR is verified."
          ("sitg:verified:" ++ decimalString challenge.id) "CHALLENGE_VERIFIED").1

/-- The committed transaction state: nonce consumed, confirmation upserted,
challenge VERIFIED, plus the audit event written right after commit. -/
def applyVerifiedTransaction (env : ConfirmEnv) (st : Db) (challenge : ChallengeRow)
    (signature signer : String) : Db :=
  { st with
    challenge_nonces := consumeNonces env.now challenge.id st.challenge_nonces
    pr_confirmations := upsertConfirmation env.fresh_confirmation_id challenge.id
      signature signer st.pr_confirmations
    pr_challenges := setChallengeVerified env.now challenge.id signer st.pr_challenges
    audit_events := st.audit_events ++
      [⟨"CHALLENGE_VERIFIED", "challenge", decimalString challenge.id⟩] }

/-- The transactional tail of `post_gate_confirm` (everything after the
LOCK_INACTIVE check): consume the nonce conditionally, upsert the
confirmation, set the challenge VERIFIED, commit, write the audit event and
best-effort enqueue the "verified" comment. -/
def post_gate_confirm_commit (env : ConfirmEnv) (st : Db) (challenge : ChallengeRow)
    (signature signer : String) : Except ApiError String × Db :=
  if st.challenge_nonces.countP (nonceConsumable env.now challenge.id) = 0 then
    (.error (.Conflict "NONCE_INVALID"), st)
  else
    (.ok "VERIFIED",
      enqueueVerifiedComment env challenge
        (applyVerifiedTransaction env st challenge signature signer))

/-- `post_gate_confirm`: the full confirm route handler. -/
def post_gate_confirm (env : ConfirmEnv) (st : Db) (gate_token : String)
    (session_cookie : Option String) (signature : String) :
    Except ApiError String × Db :=
  match require_current_user env.now st session_cookie with
  | .error e => (.error e, st)
  | .ok user =>
    if trimModel signature = "" then (.error (.Validation "signature is required"), st)
    else
      match st.pr_challenges.find? (fun c => c.gate_token == gate_token) with
      | none => (.error .NotFound, st)
      | some challenge =>
        if user.github_user_id ≠ challenge.github_pr_author_id then (.error .Forbidden, st)
        else if challenge.status = "VERIFIED" then (.ok "VERIFIED", st)
        else if challenge.status ≠ "PENDING" then
          (.error (.Conflict "CHALLENGE_NOT_PENDING"), st)
        else
          match st.challenge_nonces.find? (fun n =>
              n.challenge_id == challenge.id && n.used_at == none) with
          | none => (.error (.Conflict "NONCE_INVALID"), st)
          | some nonce_row =>
            if env.now > nonce_row.expires_at ∨ env.now > challenge.deadline_at then
              (.error (.Conflict "CHALLENGE_EXPIRED"), st)
            else
              match st.wallet_links.find? (fun w =>
                  w.github_user_id == user.github_user_id && !w.unlinked) with
              | none => (.error (.Conflict "WALLET_NOT_LINKED"), st)
              | some wl =>
                match env.staking_contract_address with
                | none => (.error (.Validation "STAKING_CONTRACT_ADDRESS is not configured"), st)
                | some _ =>
                  match env.recover_result with
                  | .error e => (.error e, st)
                  | .ok signer =>
                    if eq_ignore_ascii_case signer wl.wallet_address = false then
                      (.error (.Conflict "SIGNER_MISMATCH"), st)
                    else
                      match env.stake_result with
                      | .error e => (.error e, st)
                      | .ok stake_status =>
                        match decimal_wei_to_u128 challenge.threshold_wei_snapshot with
                        | .error e => (.error e, st)
                        | .ok threshold_wei =>
                          if stake_status.balance_wei < threshold_wei then
                            (.error (.Conflict "INSUFFICIENT_STAKE"), st)
                          else if stake_status.unlock_time_unix ≤ env.now.toNat then
                            (.error (.Conflict "LOCK_INACTIVE"), st)
                          else
                            post_gate_confirm_commit env st challenge signature signer

theorem post_gate_confirm_commit_error (env : ConfirmEnv) (st : Db)
    (challenge : ChallengeRow) (sig signer : String) (e : ApiError) (st2 : Db)
    (h : post_gate_confirm_commit env st challenge sig signer = (.error e, st2)) :
    e = .Conflict "NONCE_INVALID" ∧ st2 = st := by
  unfold post_gate_confirm_commit at h
  split at h
  · injection h with h1 h2
    injection h1 with h3
    exact ⟨h3.symm, h2.symm⟩
  · exact absurd (congrArg Prod.fst h) (by simp)

theorem post_gate_confirm_commit_fst (env : ConfirmEnv) (st : Db)
    (challenge : ChallengeRow) (sig signer : String) :
    (post_gate_confirm_commit env st challenge sig signer).1 = .ok "VERIFIED" ∨
    post_gate_confirm_commit env st challenge sig signer =
      (.error (.Conflict "NONCE_INVALID"), st) := by
  unfold post_gate_confirm_commit
  split
  · right; rfl
  · left; rfl

theorem post_gate_confirm_error_frame (env : ConfirmEnv) (st : Db) (tok : String)
    (cookie : Option String) (sig : String) (e : ApiError) (st2 : Db)
    (h : post_gate_confirm env st tok cookie sig = (.error e, st2)) : st2 = st := by
  unfold post_gate_confirm at h
  repeat' split at h
  all_goals first
    | (injection h with h1 h2; exact h2.symm)
    | exact (post_gate_confirm_commit_error _ _ _ _ _ _ _ h).2

/-- Claim C7: for a confirm request by the challenge's PR author (an
authenticated session resolving to the author, a found gate token, a
non-blank signature), a challenge already VERIFIED returns success with
status VERIFIED and changes nothing, and a challenge that is neither
VERIFIED nor PENDING (EXEMPT or TIMED_OUT_CLOSED) fails with the named
conflict CHALLENGE_NOT_PENDING, also changing nothing. -/
theorem C7_theorem (env : ConfirmEnv) (st : Db) (tok : String) (cookie : Option String)
    (sig : String) (user : CurrentUserRow) (challenge : ChallengeRow)
    (hu : require_current_user env.now st cookie = .ok user)
    (hsig : ¬ trimModel sig = "")
    (hc : st.pr_challenges.find? (fun c => c.gate_token == tok) = some challenge)
    (hauthor : user.github_user_id = challenge.github_pr_author_id) :
    (challenge.status = "VERIFIED" →
      post_gate_confirm env st tok cookie sig = (.ok "VERIFIED", st)) ∧
    (challenge.status ≠ "VERIFIED" → challenge.status ≠ "PENDING" →
      post_gate_confirm env st tok cookie sig =
        (.error (.Conflict "CHALLENGE_NOT_PENDING"), st)) := by
  constructor
  · intro hv
    simp [post_gate_confirm, hu, hc, hsig, hauthor, hv]
  · intro hnv hnp
    simp [post_gate_confirm, hu, hc, hsig, hauthor, hnv, hnp]

/-- User, session and challenge fixtures for the confirm-flow witnesses. -/
def userW : CurrentUserRow :=
  ⟨1, 7, "alice"⟩

def sessW : SessionRow :=
  ⟨"cookie", false, 1000, userW⟩

def chalVerified : ChallengeRow :=
  ⟨10, "tok", 2, "org/repo", 5, 7, "alice", "sha", 10, 500, "VERIFIED", some "0xw", 0⟩

def dbC7 : Db :=
  { emptyDb with user_sessions := [sessW], pr_challenges := [chalVerified] }

def envPlain : ConfirmEnv :=
  ⟨0, none, .error .Internal, .error .Internal, 0, 0, false, false⟩

/-- Witness for C7: a repeat confirm on an already VERIFIED challenge
returns VERIFIED and leaves the database unchanged. -/
theorem C7_witness :
    post_gate_confirm envPlain dbC7 "tok" (some "cookie") "0xsig" = (.ok "VERIFIED", dbC7) :=
  (C7_theorem envPlain dbC7 "tok" (some "cookie") "0xsig" userW chalVerified
    (by decide) (by decide) (by decide) (by decide)).1 (by decide)

/-- Claim C6: in a confirm request that has passed authentication, author,
status, nonce, expiry, wallet, configuration and signer checks, a stake
balance strictly below the snapshot threshold fails with INSUFFICIENT_STAKE
while a balance at least the threshold (equality included) never produces
that error; an unlock time not strictly in the future then fails with
LOCK_INACTIVE, and a strictly-future unlock time never produces it; on
either failure the database is unchanged, so the challenge stays PENDING
and the nonce stays unused. -/
theorem C6_theorem (env : ConfirmEnv) (st : Db) (tok : String) (cookie : Option String)
    (sig addr signer : String) (user : CurrentUserRow) (challenge : ChallengeRow)
    (nonce_row : ChallengeNonceRow) (wl : WalletLinkRow) (stk : StakeStatus) (thr : Nat)
    (hu : require_current_user env.now st cookie = .ok user)
    (hsig : ¬ trimModel sig = "")
    (hc : st.pr_challenges.find? (fun c => c.gate_token == tok) = some challenge)
    (hauthor : user.github_user_id = challenge.github_pr_author_id)
    (hpending : challenge.status = "PENDING")
    (hn : st.challenge_nonces.find? (fun n =>
      n.challenge_id == challenge.id && n.used_at == none) = some nonce_row)
    (hexp : ¬ (env.now > nonce_row.expires_at ∨ env.now > challenge.deadline_at))
    (hw : st.wallet_links.find? (fun w =>
      w.github_user_id == user.github_user_id && !w.unlinked) = some wl)
    (haddr : env.staking_contract_address = some addr)
    (hrec : env.recover_result = .ok signer)
    (hmatch : eq_ignore_ascii_case signer wl.wallet_address = true)
    (hstk : env.stake_result = .ok stk)
    (hthr : decimal_wei_to_u128 challenge.threshold_wei_snapshot = .ok thr) :
    (stk.balance_wei < thr →
      post_gate_confirm env st tok cookie sig = (.error (.Conflict "INSUFFICIENT_STAKE"), st)) ∧
    (thr ≤ stk.balance_wei → stk.unlock_time_unix ≤ env.now.toNat →
      post_gate_confirm env st tok cookie sig = (.error (.Conflict "LOCK_INACTIVE"), st)) ∧
    (thr ≤ stk.balance_wei → env.now.toNat < stk.unlock_time_unix →
      (post_gate_confirm env st tok cookie sig).1 ≠ .error (.Conflict "INSUFFICIENT_STAKE") ∧
      (post_gate_confirm env st tok cookie sig).1 ≠ .error (.Conflict "LOCK_INACTIVE")) := by
  have hred : post_gate_confirm env st tok cookie sig =
      (if stk.balance_wei < thr then (.error (.Conflict "INSUFFICIENT_STAKE"), st)
       else if stk.unlock_time_unix ≤ env.now.toNat then
         (.error (.Conflict "LOCK_INACTIVE"), st)
       else post_gate_confirm_commit env st challenge sig signer) := by
    have hw2 : st.wallet_links.find? (fun w =>
        w.github_user_id == challenge.github_pr_author_id && !w.unlinked) = some wl := by
      rw [← hauthor]
      exact hw
    simp [post_gate_confirm, hu, hc, hsig, hauthor, hpending, hn, hexp, hw2, haddr,
      hrec, hmatch, hstk, hthr]
  refine ⟨?_, ?_, ?_⟩
  · intro hlt
    rw [hred, if_pos hlt]
  · intro hge hle
    rw [hred, if_neg (by omega), if_pos hle]
  · intro hge hgt
    rw [hred, if_neg (by omega), if_neg (by omega)]
    rcases post_gate_confirm_commit_fst env st challenge sig signer with hok | herr
    · rw [hok]
      constructor <;> simp
    · rw [herr]
      constructor <;> simp

/-- PENDING challenge fixture for the confirm-flow witnesses. -/
def chalPending : ChallengeRow :=
  ⟨10, "tok", 2, "org/repo", 5, 7, "alice", "sha", 10, 500, "PENDING", none, 0⟩

def nonceW : ChallengeNonceRow :=
  ⟨10, 99, 400, none⟩

def wlW : WalletLinkRow :=
  ⟨7, "0xw", false⟩

def dbC6 : Db :=
  { emptyDb with
    user_sessions := [sessW]
    pr_challenges := [chalPending]
    challenge_nonces := [nonceW]
    wallet_links := [wlW] }

/-- Environment reporting balance 5 wei against a threshold snapshot of 10. -/
def envC6 : ConfirmEnv :=
  ⟨0, some "0xc", .ok "0xw", .ok ⟨5, 10⟩, 0, 0, false, false⟩

/-- Witness for C6: a concrete confirm whose stake balance is below the
snapshot threshold fails with INSUFFICIENT_STAKE and leaves the database
unchanged. -/
theorem C6_witness :
    post_gate_confirm envC6 dbC6 "tok" (some "cookie") "0xsig" =
      (.error (.Conflict "INSUFFICIENT_STAKE"), dbC6) :=
  (C6_theorem envC6 dbC6 "tok" (some "cookie") "0xsig" "0xc" "0xw" userW chalPending
    nonceW wlW ⟨5, 10⟩ 10 (by decide) (by decide) (by decide) (by decide) (by decide)
    (by decide) (by decide) (by decide) (by decide) (by decide) (by decide) (by decide)
    (by decide)).1 (by decide)

theorem queue_pr_comment_action_fields (now : Int) (fid : Nat) (st : Db)
    (cid : Option Nat) (inst rid : Int) (rfn : String) (prn : Int) (md mk rsn : String) :
    ((queue_pr_comment_action now fid st cid inst rid rfn prn md mk rsn).1.challenge_nonces
      = st.challenge_nonces) ∧
    ((queue_pr_comment_action now fid st cid inst rid rfn prn md mk rsn).1.pr_challenges
      = st.pr_challenges) ∧
    ((queue_pr_comment_action now fid st cid inst rid rfn prn md mk rsn).1.pr_confirmations
      = st.pr_confirmations) := by
  unfold queue_pr_comment_action
  split <;> simp

theorem enqueueVerifiedComment_fields (env : ConfirmEnv) (challenge : ChallengeRow)
    (st1 : Db) :
    ((enqueueVerifiedComment env challenge st1).challenge_nonces = st1.challenge_nonces) ∧
    ((enqueueVerifiedComment env challenge st1).pr_challenges = st1.pr_challenges) ∧
    ((enqueueVerifiedComment env challenge st1).pr_confirmations = st1.pr_confirmations) := by
  unfold enqueueVerifiedComment
  split
  · exact ⟨rfl, rfl, rfl⟩
  · split
    · exact ⟨rfl, rfl, rfl⟩
    · split
      · exact ⟨rfl, rfl, rfl⟩
      · exact queue_pr_comment_action_fields _ _ _ _ _ _ _ _ _ _ _

theorem enqueueVerifiedComment_no_insert (env : ConfirmEnv) (challenge : ChallengeRow)
    (st1 : Db) :
    (env.repo_lookup_fails = true → enqueueVerifiedComment env challenge st1 = st1) ∧
    (st1.repo_configs.find? (fun r => r.github_repo_id == challenge.github_repo_id) = none →
      enqueueVerifiedComment env challenge st1 = st1) ∧
    (env.enqueue_fails = true → enqueueVerifiedComment env challenge st1 = st1) := by
  refine ⟨?_, ?_, ?_⟩
  · intro h
    unfold enqueueVerifiedComment
    rw [if_pos h]
  · intro h
    unfold enqueueVerifiedComment
    split
    · rfl
    · simp [h]
  · intro h
    unfold enqueueVerifiedComment
    split
    · rfl
    · split
      · rfl
      · simp [h]

theorem consumeNonces_no_unused (now : Int) (cid : Nat) (l : List ChallengeNonceRow) :
    ∀ n ∈ consumeNonces now cid l, n.used_at = none → nonceConsumable now cid n = false := by
  intro n hn hu
  unfold consumeNonces at hn
  obtain ⟨n0, hn0, hmap⟩ := List.mem_map.mp hn
  by_cases hc : nonceConsumable now cid n0 = true
  · rw [if_pos hc] at hmap
    rw [← hmap] at hu
    simp at hu
  · rw [if_neg hc] at hmap
    rw [← hmap]
    simpa using hc

theorem setChallengeVerified_mem (now : Int) (cid : Nat) (signer : String)
    (l : List ChallengeRow) (ch : ChallengeRow) (h : ch ∈ l) (hid : ch.id = cid) :
    ∃ c ∈ setChallengeVerified now cid signer l, c.id = cid ∧ c.status = "VERIFIED" := by
  unfold setChallengeVerified
  refine ⟨_, List.mem_map_of_mem _ h, ?_⟩
  simp [hid]

theorem upsertConfirmation_mem (fresh cid : Nat) (sig signer : String)
    (l : List ConfirmationRow) :
    ∃ c ∈ upsertConfirmation fresh cid sig signer l,
      c.challenge_id = cid ∧ c.signature = sig := by
  unfold upsertConfirmation
  split
  · rename_i hany
    obtain ⟨c0, hc0, hc0id⟩ := List.any_eq_true.mp hany
    refine ⟨_, List.mem_map_of_mem _ hc0, ?_⟩
    have hcid : c0.challenge_id = cid := by simpa using hc0id
    simp [hcid]
  · refine ⟨⟨fresh, cid, sig, signer⟩, ?_, rfl, rfl⟩
    simp

theorem applyVerifiedTransaction_challenge_nonces (env : ConfirmEnv) (st : Db)
    (challenge : ChallengeRow) (sig signer : String) :
    (applyVerifiedTransaction env st challenge sig signer).challenge_nonces =
      consumeNonces env.now challenge.id st.challenge_nonces := rfl

theorem applyVerifiedTransaction_pr_challenges (env : ConfirmEnv) (st : Db)
    (challenge : ChallengeRow) (sig signer : String) :
    (applyVerifiedTransaction env st challenge sig signer).pr_challenges =
      setChallengeVerified env.now challenge.id signer st.pr_challenges := rfl

theorem applyVerifiedTransaction_pr_confirmations (env : ConfirmEnv) (st : Db)
    (challenge : ChallengeRow) (sig signer : String) :
    (applyVerifiedTransaction env st challenge sig signer).pr_confirmations =
      upsertConfirmation env.fresh_confirmation_id challenge.id sig signer
        st.pr_confirmations := rfl

theorem applyVerifiedTransaction_bot_actions (env : ConfirmEnv) (st : Db)
    (challenge : ChallengeRow) (sig signer : String) :
    (applyVerifiedTransaction env st challenge sig signer).bot_actions =
      st.bot_actions := rfl

theorem applyVerifiedTransaction_repo_configs (env : ConfirmEnv) (st : Db)
    (challenge : ChallengeRow) (sig signer : String) :
    (applyVerifiedTransaction env st challenge sig signer).repo_configs =
      st.repo_configs := rfl

theorem post_gate_confirm_commit_ok (env : ConfirmEnv) (st : Db)
    (challenge : ChallengeRow) (sig signer : String) (r : String) (st2 : Db)
    (hmemch : challenge ∈ st.pr_challenges)
    (h : post_gate_confirm_commit env st challenge sig signer = (.ok r, st2)) :
    r = "VERIFIED" ∧
    (∃ n ∈ st.challenge_nonces, nonceConsumable env.now challenge.id n = true) ∧
    (∀ n ∈ st2.challenge_nonces, n.used_at = none →
      nonceConsumable env.now challenge.id n = false) ∧
    (∃ c ∈ st2.pr_challenges, c.id = challenge.id ∧ c.status = "VERIFIED") ∧
    (∃ c ∈ st2.pr_confirmations, c.challenge_id = challenge.id ∧ c.signature = sig) ∧
    (env.repo_lookup_fails = true → st2.bot_actions = st.bot_actions) ∧
    (st.repo_configs.find? (fun rc => rc.github_repo_id == challenge.github_repo_id) = none →
      st2.bot_actions = st.bot_actions) ∧
    (env.enqueue_fails = true → st2.bot_actions = st.bot_actions) := by
  unfold post_gate_confirm_commit at h
  split at h
  · exact absurd h (by simp)
  · rename_i hcnt
    injection h with h1 h2
    have hr : r = "VERIFIED" := by injection h1 with h1a; exact h1a.symm
    subst h2
    refine ⟨hr, ?_, ?_, ?_, ?_, ?_, ?_, ?_⟩
    · have hpos : 0 < st.challenge_nonces.countP (nonceConsumable env.now challenge.id) :=
        Nat.pos_of_ne_zero hcnt
      exact List.countP_pos_iff.mp hpos
    · rw [(enqueueVerifiedComment_fields _ _ _).1,
        applyVerifiedTransaction_challenge_nonces]
      exact consumeNonces_no_unused _ _ _
    · rw [(enqueueVerifiedComment_fields _ _ _).2.1,
        applyVerifiedTransaction_pr_challenges]
      exact setChallengeVerified_mem _ _ _ _ _ hmemch rfl
    · rw [(enqueueVerifiedComment_fields _ _ _).2.2,
        applyVerifiedTransaction_pr_confirmations]
      exact upsertConfirmation_mem _ _ _ _ _
    · intro hf
      rw [(enqueueVerifiedComment_no_insert _ _ _).1 hf,
        applyVerifiedTransaction_bot_actions]
    · intro hf
      rw [(enqueueVerifiedComment_no_insert _ _ _).2.1
          (by rw [applyVerifiedTransaction_repo_configs]; exact hf),
        applyVerifiedTransaction_bot_actions]
    · intro hf
      rw [(enqueueVerifiedComment_no_insert _ _ _).2.2 hf,
        applyVerifiedTransaction_bot_actions]

/-- Challenge-10 nonce that is unused but already expired at time 10. -/
def nonceExpired : ChallengeNonceRow :=
  ⟨10, 99, 5, none⟩

def dbC4x : Db :=
  { emptyDb with
    user_sessions := [sessW]
    pr_challenges := [chalPending]
    challenge_nonces := [nonceExpired] }

def envC4x : ConfirmEnv :=
  ⟨10, none, .error .Internal, .error .Internal, 0, 0, false, false⟩

/-- Claim C4 counterexample: a confirm attempt on a state holding no
unused, unexpired nonce (the only nonce is unused but expired) fails with
CHALLENGE_EXPIRED, not with NONCE_INVALID as the claim states; the state is
still unchanged. -/
theorem C4_counterexample :
    dbC4x.challenge_nonces.countP (nonceConsumable 10 10) = 0 ∧
    (∃ n ∈ dbC4x.challenge_nonces, n.challenge_id = 10 ∧ n.used_at = none) ∧
    post_gate_confirm envC4x dbC4x "tok" (some "cookie") "s" =
      (.error (.Conflict "CHALLENGE_EXPIRED"), dbC4x) ∧
    (ApiError.Conflict "CHALLENGE_EXPIRED" ≠ ApiError.Conflict "NONCE_INVALID") := by
  decide

theorem post_gate_confirm_ok_commit (env : ConfirmEnv) (st : Db) (tok : String)
    (cookie : Option String) (sig : String) (r : String) (st2 : Db)
    (h : post_gate_confirm env st tok cookie sig = (.ok r, st2)) :
    ∃ challenge, st.pr_challenges.find? (fun c => c.gate_token == tok) = some challenge ∧
      ((challenge.status = "VERIFIED" ∧ r = "VERIFIED" ∧ st2 = st) ∨
       ∃ signer, post_gate_confirm_commit env st challenge sig signer = (.ok r, st2)) := by
  unfold post_gate_confirm at h
  repeat' split at h
  all_goals first
    | (apply absurd h
       simp
       done)
    | skip
  · injection h with h1 h2
    injection h1 with h1a
    exact ⟨_, by assumption, .inl ⟨by assumption, h1a.symm, h2.symm⟩⟩
  · exact ⟨_, by assumption, .inr ⟨_, h⟩⟩

/-- Claim C4 (amended): the nonce is marked used only by the conditional
update requiring it to be unused and unexpired; VERIFIED status and the
confirmation record are persisted only when that update succeeds; a confirm
attempt finding no unused nonce at all fails with NONCE_INVALID, while one
finding an unused nonce that is already expired fails with
CHALLENGE_EXPIRED (not NONCE_INVALID as stated); every failing confirm
leaves the database unchanged. -/
theorem C4_theorem (env : ConfirmEnv) (st : Db) (tok : String) (cookie : Option String)
    (sig : String) (user : CurrentUserRow) (challenge : ChallengeRow)
    (hu : require_current_user env.now st cookie = .ok user)
    (hsig : ¬ trimModel sig = "")
    (hc : st.pr_challenges.find? (fun c => c.gate_token == tok) = some challenge)
    (hauthor : user.github_user_id = challenge.github_pr_author_id)
    (hpending : challenge.status = "PENDING") :
    (st.challenge_nonces.find? (fun n =>
        n.challenge_id == challenge.id && n.used_at == none) = none →
      post_gate_confirm env st tok cookie sig = (.error (.Conflict "NONCE_INVALID"), st)) ∧
    (∀ nonce_row, st.challenge_nonces.find? (fun n =>
        n.challenge_id == challenge.id && n.used_at == none) = some nonce_row →
      env.now > nonce_row.expires_at →
      post_gate_confirm env st tok cookie sig =
        (.error (.Conflict "CHALLENGE_EXPIRED"), st)) ∧
    (∀ e st2, post_gate_confirm env st tok cookie sig = (.error e, st2) → st2 = st) ∧
    (∀ r st2, post_gate_confirm env st tok cookie sig = (.ok r, st2) →
      (∃ n ∈ st.challenge_nonces, nonceConsumable env.now challenge.id n = true) ∧
      (∀ n ∈ st2.challenge_nonces, n.used_at = none →
        nonceConsumable env.now challenge.id n = false) ∧
      (∃ c ∈ st2.pr_challenges, c.id = challenge.id ∧ c.status = "VERIFIED") ∧
      (∃ c ∈ st2.pr_confirmations, c.challenge_id = challenge.id ∧ c.signature = sig)) := by
  refine ⟨?_, ?_, ?_, ?_⟩
  · intro hnone
    simp [post_gate_confirm, hu, hc, hsig, hauthor, hpending, hnone]
  · intro nonce_row hnr hgt
    simp [post_gate_confirm, hu, hc, hsig, hauthor, hpending, hnr, hgt]
  · intro e st2 h
    exact post_gate_confirm_error_frame env st tok cookie sig e st2 h
  · intro r st2 hok
    obtain ⟨challenge0, hfind0, hcases⟩ :=
      post_gate_confirm_ok_commit env st tok cookie sig r st2 hok
    rw [hc] at hfind0
    have hch : challenge = challenge0 := Option.some.inj hfind0
    rcases hcases with ⟨hv, _, _⟩ | ⟨signer, hcommit⟩
    · rw [← hch, hpending] at hv
      exact absurd hv (by decide)
    · rw [← hch] at hcommit
      obtain ⟨_, h2, h3, h4, h5, _, _, _⟩ :=
        post_gate_confirm_commit_ok env st challenge sig signer r st2
          (List.mem_of_find?_eq_some hc) hcommit
      exact ⟨h2, h3, h4, h5⟩

/-- Witness for C4: a confirm on a concrete state whose challenge has no
nonce row at all fails with NONCE_INVALID and changes nothing. -/
def dbC4w : Db :=
  { emptyDb with user_sessions := [sessW], pr_challenges := [chalPending] }

theorem C4_witness :
    post_gate_confirm envC4x dbC4w "tok" (some "cookie") "s" =
      (.error (.Conflict "NONCE_INVALID"), dbC4w) :=
  (C4_theorem envC4x dbC4w "tok" (some "cookie") "s" userW chalPending
    (by decide) (by decide) (by decide) (by decide) (by decide)).1 (by decide)

/-- Claim C10: once the confirm transaction has committed the VERIFIED
transition, enqueueing the follow-up "verified" comment bot action is
best-effort: whether the repo-config lookup fails, the repo config row is
missing, or the enqueue insert fails, the call still returns status
VERIFIED with the challenge VERIFIED, and in each of those cases no bot
action has been enqueued — so a successful confirm response does not
guarantee a verified-comment action exists. -/
theorem C10_theorem (env : ConfirmEnv) (st : Db) (tok : String) (cookie : Option String)
    (sig addr signer : String) (user : CurrentUserRow) (challenge : ChallengeRow)
    (nonce_row : ChallengeNonceRow) (wl : WalletLinkRow) (stk : StakeStatus) (thr : Nat)
    (hu : require_current_user env.now st cookie = .ok user)
    (hsig : ¬ trimModel sig = "")
    (hc : st.pr_challenges.find? (fun c => c.gate_token == tok) = some challenge)
    (hauthor : user.github_user_id = challenge.github_pr_author_id)
    (hpending : challenge.status = "PENDING")
    (hn : st.challenge_nonces.find? (fun n =>
      n.challenge_id == challenge.id && n.used_at == none) = some nonce_row)
    (hexp : ¬ (env.now > nonce_row.expires_at ∨ env.now > challenge.deadline_at))
    (hw : st.wallet_links.find? (fun w =>
      w.github_user_id == user.github_user_id && !w.unlinked) = some wl)
    (haddr : env.staking_contract_address = some addr)
    (hrec : env.recover_result = .ok signer)
    (hmatch : eq_ignore_ascii_case signer wl.wallet_address = true)
    (hstk : env.stake_result = .ok stk)
    (hthr : decimal_wei_to_u128 challenge.threshold_wei_snapshot = .ok thr)
    (hbal : ¬ stk.balance_wei < thr)
    (hlock : ¬ stk.unlock_time_unix ≤ env.now.toNat)
    (hcnt : st.challenge_nonces.countP (nonceConsumable env.now challenge.id) ≠ 0) :
    (post_gate_confirm env st tok cookie sig).1 = .ok "VERIFIED" ∧
    (∃ c ∈ (post_gate_confirm env st tok cookie sig).2.pr_challenges,
      c.id = challenge.id ∧ c.status = "VERIFIED") ∧
    (env.repo_lookup_fails = true →
      (post_gate_confirm env st tok cookie sig).2.bot_actions = st.bot_actions) ∧
    (st.repo_configs.find? (fun rc =>
        rc.github_repo_id == challenge.github_repo_id) = none →
      (post_gate_confirm env st tok cookie sig).2.bot_actions = st.bot_actions) ∧
    (env.enqueue_fails = true →
      (post_gate_confirm env st tok cookie sig).2.bot_actions = st.bot_actions) := by
  have hred : post_gate_confirm env st tok cookie sig =
      post_gate_confirm_commit env st challenge sig signer := by
    have hw2 : st.wallet_links.find? (fun w =>
        w.github_user_id == challenge.github_pr_author_id && !w.unlinked) = some wl := by
      rw [← hauthor]
      exact hw
    simp [post_gate_confirm, hu, hc, hsig, hauthor, hpending, hn, hexp, hw2, haddr,
      hrec, hmatch, hstk, hthr, hbal, hlock]
  have hcommit : post_gate_confirm_commit env st challenge sig signer =
      (.ok "VERIFIED",
        enqueueVerifiedComment env challenge
          (applyVerifiedTransaction env st challenge sig signer)) := by
    unfold post_gate_confirm_commit
    rw [if_neg hcnt]
  obtain ⟨_, _, _, h4, _, h6, h7, h8⟩ :=
    post_gate_confirm_commit_ok env st challenge sig signer "VERIFIED"
      (enqueueVerifiedComment env challenge
        (applyVerifiedTransaction env st challenge sig signer))
      (List.mem_of_find?_eq_some hc) hcommit
  rw [hred, hcommit]
  exact ⟨rfl, h4, h6, h7, h8⟩

/-- Environment for the C10 witness: stake balance exactly at the threshold,
lock strictly in the future, everything valid, but no repo-config row
exists, so the post-commit enqueue silently does nothing. -/
def envC10 : ConfirmEnv :=
  ⟨0, some "0xc", .ok "0xw", .ok ⟨10, 10⟩, 55, 66, false, false⟩

/-- Witness for C10: the concrete confirm succeeds with VERIFIED even though
no verified-comment action was enqueued (the repo config is missing). -/
theorem C10_witness :
    (post_gate_confirm envC10 dbC6 "tok" (some "cookie") "0xsig").1 = .ok "VERIFIED" ∧
    (post_gate_confirm envC10 dbC6 "tok" (some "cookie") "0xsig").2.bot_actions =
      dbC6.bot_actions := by
  have h := C10_theorem envC10 dbC6 "tok" (some "cookie") "0xsig" "0xc" "0xw" userW
    chalPending nonceW wlW ⟨10, 10⟩ 10 (by decide) (by decide) (by decide) (by decide)
    (by decide) (by decide) (by decide) (by decide) (by decide) (by decide) (by decide)
    (by decide) (by decide) (by decide) (by decide) (by decide)
  exact ⟨h.1, h.2.2.2.1 (by decide)⟩

/-! ### `routes/mod.rs`: the v2 bot-action queue endpoints -/

/-- Insertion step of the stable sort used to model SQL `order by _ asc`. -/
def insertByKey {α : Type} (key : α → Int) (a : α) : List α → List α
  | [] => [a]
  | b :: rest => if key a ≤ key b then a :: b :: rest else b :: insertByKey key a rest

/-- Stable insertion sort by an integer key (`order by _ asc`). -/
def sortByKey {α : Type} (key : α → Int) : List α → List α
  | [] => []
  | a :: rest => insertByKey key a (sortByKey key rest)

/-- `BotActionClaimRequest` (`models/api.rs`). -/
structure BotActionClaimRequest where
  worker_id : String
  limit : Option Int
deriving Repr, DecidableEq

/-- `internal_v2_bot_actions_claim`: validate the worker id, authenticate
(with replay registration), then in one transaction claim up to
`clamp(limit, 1, 100)` (default 25) PENDING actions ordered oldest
`created_at` first, setting CLAIMED / `claimed_by` / `attempts + 1`.
Note the SQL selects on `status = 'PENDING'` alone — there is no
installation-binding filter. -/
def internal_v2_bot_actions_claim (hmacEq : List Nat → Int → String → List Nat → Bool)
    (now : Int) (st : Db) (key_id ts sig : String) (payload : BotActionClaimRequest) :
    Except ApiError (List BotActionRow) × Db :=
  if trimModel payload.worker_id = "" then
    (.error (.Validation "worker_id is required"), st)
  else
    match internal_auth_and_replay hmacEq now st key_id ts sig
        ("bot-actions-claim:" ++ payload.worker_id) with
    | (.error e, st1) => (.error e, st1)
    | (.ok _auth, st1) =>
      let limit := max 1 (min 100 (payload.limit.getD 25))
      let selected := ((sortByKey (fun a => a.created_at)
        (st1.bot_actions.filter (fun a => a.status == "PENDING"))).take limit.toNat).map
          (fun a => a.id)
      let updated := st1.bot_actions.map (fun a =>
        if selected.contains a.id then
          { a with
            status := "CLAIMED"
            claimed_at := some now
            claimed_by := some payload.worker_id
            attempts := a.attempts + 1
            updated_at := now }
        else a)
      (.ok (updated.filter (fun a => selected.contains a.id)),
        { st1 with bot_actions := updated })

/-- `BotActionResultRequest` (`models/api.rs`). -/
structure BotActionResultRequest where
  worker_id : String
  outcome : String
  failure_code : Option String
  failure_message : Option String
deriving Repr, DecidableEq

/-- The conditional-update predicate of every result report:
`where id = $1 and status = 'CLAIMED' and claimed_by = $2`. -/
def resultRowMatch (action_id : Nat) (worker_id : String) (a : BotActionRow) : Bool :=
  a.id == action_id && a.status == "CLAIMED" && a.claimed_by == some worker_id

/-- Shared shape of the three result updates: conditionally update the row
still CLAIMED by this worker; zero rows affected is the ownership conflict;
otherwise record the audit event and answer with the new status. -/
def bot_action_result_update (st1 : Db) (action_id : Nat) (worker_id : String)
    (upd : BotActionRow → BotActionRow) (status : String) :
    Except ApiError (Nat × String) × Db :=
  if st1.bot_actions.countP (resultRowMatch action_id worker_id) = 0 then
    (.error (.Conflict "BOT_ACTION_NOT_CLAIMED_BY_WORKER"), st1)
  else
    (.ok (action_id, status),
      { st1 with
        bot_actions := st1.bot_actions.map (fun a =>
          if resultRowMatch action_id worker_id a then upd a else a)
        audit_events := st1.audit_events ++
          [⟨"BOT_ACTION_RESULT", "bot_action", decimalString action_id⟩] })

/-- Row update of a SUCCEEDED report: CLAIMED to DONE, failure fields cleared. -/
def doneUpdate (now : Int) (a : BotActionRow) : BotActionRow :=
  { a with
    status := "DONE"
    completed_at := some now
    failure_code := none
    failure_reason := none
    updated_at := now }

/-- Row update of a RETRYABLE_FAILURE report: back to PENDING, claim
ownership cleared, failure reason recorded, attempts kept. -/
def retryUpdate (now : Int) (payload : BotActionResultRequest) (a : BotActionRow) :
    BotActionRow :=
  { a with
    status := "PENDING"
    claimed_by := none
    claimed_at := none
    failure_code := payload.failure_code
    failure_reason := some (payload.failure_message.getD "retry requested")
    updated_at := now }

/-- Row update of a FAILED report: terminal FAILED with failure details. -/
def failedUpdate (now : Int) (payload : BotActionResultRequest) (a : BotActionRow) :
    BotActionRow :=
  { a with
    status := "FAILED"
    completed_at := some now
    failure_code := payload.failure_code
    failure_reason := some (payload.failure_message.getD "unknown failure")
    updated_at := now }

/-- `internal_v2_bot_action_result`: validate worker id and outcome
(uppercased, must be SUCCEEDED / RETRYABLE_FAILURE / FAILED), authenticate
with replay registration, then apply the outcome-specific conditional
update. -/
def internal_v2_bot_action_result (hmacEq : List Nat → Int → String → List Nat → Bool)
    (now : Int) (st : Db) (key_id ts sig : String) (action_id : Nat)
    (payload : BotActionResultRequest) : Except ApiError (Nat × String) × Db :=
  if trimModel payload.worker_id = "" then
    (.error (.Validation "worker_id is required"), st)
  else
    if ¬ (toUpperAscii payload.outcome = "SUCCEEDED" ∨
        toUpperAscii payload.outcome = "RETRYABLE_FAILURE" ∨
        toUpperAscii payload.outcome = "FAILED") then
      (.error (.Validation "outcome must be SUCCEEDED, RETRYABLE_FAILURE, or FAILED"), st)
    else
      match internal_auth_and_replay hmacEq now st key_id ts sig
          ("bot-action-result:" ++ decimalString action_id ++ ":" ++ payload.worker_id ++
            ":" ++ toUpperAscii payload.outcome) with
      | (.error e, st1) => (.error e, st1)
      | (.ok _auth, st1) =>
        if toUpperAscii payload.outcome = "SUCCEEDED" then
          bot_action_result_update st1 action_id payload.worker_id
            (doneUpdate now) "DONE"
        else if toUpperAscii payload.outcome = "RETRYABLE_FAILURE" then
          bot_action_result_update st1 action_id payload.worker_id
            (retryUpdate now payload) "PENDING"
        else
          bot_action_result_update st1 action_id payload.worker_id
            (failedUpdate now payload) "FAILED"

/-- Active internal-auth key for tenant (bot client) 1. -/
def keyRowC1 : BotKeyRow :=
  ⟨"k", 1, "sha256:" ++ hexEncode (List.replicate 32 0), true, false, "ACTIVE"⟩

/-- A PENDING close action on repo 2, which lives under installation 202. -/
def actionC1 : BotActionRow :=
  { id := 5, action_type := "CLOSE_PR", challenge_id := none, installation_id := 202,
    github_repo_id := 2, repo_full_name := "org2/repo2", github_pr_number := 20,
    payload := [], status := "PENDING", claimed_by := none, claimed_at := none,
    completed_at := none, attempts := 0, failure_code := none, failure_reason := none,
    created_at := 0, updated_at := 0 }

/-- State for C1: tenant 1 is bound only to installation 101, while the one
PENDING action belongs to repo 2 under installation 202. -/
def dbC1 : Db :=
  { emptyDb with
    bot_client_keys := [keyRowC1]
    bot_installation_bindings := [(1, 101)]
    repo_configs := [⟨2, 202, "org2/repo2"⟩]
    bot_actions := [actionC1] }

/-- Claim C1 evaluated at the failing input: the worker authenticated as
tenant 1 — bound only to installation 101 — claims the queue, and the
batch returned contains the PENDING action of repo 2, whose installation
202 is NOT bound to tenant 1: the route's claim SQL filters on PENDING
status alone, with no installation-binding condition, although the repo's
own integration test `bot_action_claim_filters_by_installation_binding`
encodes the binding-filtered claim as the intended semantics. -/
theorem C1_theorem :
    ((internal_v2_bot_actions_claim hmacAlways 0 dbC1 "k" "0" "ab"
        ⟨"worker-a", none⟩).1 =
      .ok [{ actionC1 with
              status := "CLAIMED"
              claimed_at := some 0
              claimed_by := some "worker-a"
              attempts := 1
              updated_at := 0 }]) ∧
    ((1, 202) ∉ dbC1.bot_installation_bindings) ∧
    (∀ rc ∈ dbC1.repo_configs, rc.github_repo_id = actionC1.github_repo_id →
      rc.installation_id = 202) := by
  decide

theorem internal_auth_and_replay_error_forbidden
    (hmacEq : List Nat → Int → String → List Nat → Bool) (now : Int) (st : Db)
    (k ts sig msg : String) (e : ApiError) (st1 : Db)
    (h : internal_auth_and_replay hmacEq now st k ts sig msg = (.error e, st1)) :
    e = .Forbidden := by
  unfold internal_auth_and_replay at h
  split at h
  · rename_i e0 hv
    injection h with h1 h2
    injection h1 with h1a
    rw [← h1a]
    exact verify_internal_request_error_forbidden _ _ _ _ _ _ _ _ hv
  · rename_i ctx hv
    split at h
    · rename_i e0 st0 hst
      injection h with h1 h2
      injection h1 with h1a
      rw [← h1a]
      unfold store_internal_replay at hst
      split at hst
      · injection hst with hst1 hst2
        injection hst1 with hst1a
        exact hst1a.symm
      · exact absurd hst (by simp)
    · exact absurd h (by simp)

theorem internal_auth_and_replay_bot_actions
    (hmacEq : List Nat → Int → String → List Nat → Bool) (now : Int) (st : Db)
    (k ts sig msg : String) (res : Except ApiError InternalAuthContext) (st1 : Db)
    (h : internal_auth_and_replay hmacEq now st k ts sig msg = (res, st1)) :
    st1.bot_actions = st.bot_actions := by
  unfold internal_auth_and_replay at h
  split at h
  · injection h with h1 h2
    rw [← h2]
  · split at h
    · rename_i e0 st0 hst
      injection h with h1 h2
      rw [← h2]
      unfold store_internal_replay at hst
      split at hst
      · injection hst with hst1 hst2
        rw [← hst2]
      · injection hst with hst1 hst2
        rw [← hst2]
    · rename_i u0 st0 hst
      injection h with h1 h2
      rw [← h2]
      unfold store_internal_replay at hst
      split at hst
      · exact absurd hst (by simp)
      · injection hst with hst1 hst2
        rw [← hst2]

theorem bot_action_result_update_cases (st1 : Db) (action_id : Nat) (worker_id : String)
    (upd : BotActionRow → BotActionRow) (status : String) :
    (st1.bot_actions.countP (resultRowMatch action_id worker_id) = 0 →
      bot_action_result_update st1 action_id worker_id upd status =
        (.error (.Conflict "BOT_ACTION_NOT_CLAIMED_BY_WORKER"), st1)) ∧
    (∀ v st2, bot_action_result_update st1 action_id worker_id upd status = (.ok v, st2) →
      0 < st1.bot_actions.countP (resultRowMatch action_id worker_id)) ∧
    (∀ m, (bot_action_result_update st1 action_id worker_id upd status).1 ≠
      .error (.Validation m)) := by
  refine ⟨?_, ?_, ?_⟩
  · intro h
    unfold bot_action_result_update
    rw [if_pos h]
  · intro v st2 h
    unfold bot_action_result_update at h
    split at h
    · exact absurd h (by simp)
    · rename_i hc
      exact Nat.pos_of_ne_zero hc
  · intro m
    unfold bot_action_result_update
    split <;> simp

theorem resultRowMatch_iff (action_id : Nat) (worker_id : String) (a : BotActionRow) :
    resultRowMatch action_id worker_id a = true ↔
      a.id = action_id ∧ a.status = "CLAIMED" ∧ a.claimed_by = some worker_id := by
  simp [resultRowMatch, and_assoc]

/-- Claim C8: a bot-action result report (valid worker id and outcome,
authenticated with replay registration) applies its transition only when
the action is currently CLAIMED by exactly the reporting worker id: when no
such row exists the call fails with BOT_ACTION_NOT_CLAIMED_BY_WORKER and
the actions table is untouched (it equals the pre-request table), and any
successful report implies such a row existed. -/
theorem C8_theorem (hmacEq : List Nat → Int → String → List Nat → Bool) (now : Int)
    (st : Db) (key ts sig : String) (action_id : Nat) (payload : BotActionResultRequest)
    (ctx : InternalAuthContext) (st1 : Db)
    (hw : ¬ trimModel payload.worker_id = "")
    (ho : toUpperAscii payload.outcome = "SUCCEEDED" ∨
      toUpperAscii payload.outcome = "RETRYABLE_FAILURE" ∨
      toUpperAscii payload.outcome = "FAILED")
    (hauth : internal_auth_and_replay hmacEq now st key ts sig
      ("bot-action-result:" ++ decimalString action_id ++ ":" ++ payload.worker_id ++
        ":" ++ toUpperAscii payload.outcome) = (.ok ctx, st1)) :
    ((¬ ∃ a ∈ st1.bot_actions, a.id = action_id ∧ a.status = "CLAIMED" ∧
        a.claimed_by = some payload.worker_id) →
      internal_v2_bot_action_result hmacEq now st key ts sig action_id payload =
        (.error (.Conflict "BOT_ACTION_NOT_CLAIMED_BY_WORKER"), st1) ∧
      st1.bot_actions = st.bot_actions) ∧
    (∀ v st2, internal_v2_bot_action_result hmacEq now st key ts sig action_id payload =
        (.ok v, st2) →
      ∃ a ∈ st1.bot_actions, a.id = action_id ∧ a.status = "CLAIMED" ∧
        a.claimed_by = some payload.worker_id) := by
  have hba := internal_auth_and_replay_bot_actions _ _ _ _ _ _ _ _ _ hauth
  have hred : ∃ upd status,
      internal_v2_bot_action_result hmacEq now st key ts sig action_id payload =
        bot_action_result_update st1 action_id payload.worker_id upd status := by
    rcases ho with h1 | h1 | h1
    all_goals rw [h1] at hauth
    · exact ⟨doneUpdate now, "DONE",
        by simp [internal_v2_bot_action_result, hw, h1, hauth]⟩
    · exact ⟨retryUpdate now payload, "PENDING",
        by simp [internal_v2_bot_action_result, hw, h1, hauth]⟩
    · exact ⟨failedUpdate now payload, "FAILED",
        by simp [internal_v2_bot_action_result, hw, h1, hauth]⟩
  obtain ⟨upd, status, hred⟩ := hred
  constructor
  · intro hne
    have hcnt : st1.bot_actions.countP (resultRowMatch action_id payload.worker_id) = 0 := by
      rw [List.countP_eq_zero]
      intro a ha
      rw [resultRowMatch_iff]
      intro htriple
      exact hne ⟨a, ha, htriple⟩
    exact ⟨hred.trans
      ((bot_action_result_update_cases st1 action_id payload.worker_id upd status).1 hcnt),
      hba⟩
  · intro v st2 hok
    rw [hred] at hok
    have hpos :=
      (bot_action_result_update_cases st1 action_id payload.worker_id upd status).2.1
        v st2 hok
    obtain ⟨a, ha, hp⟩ := List.countP_pos_iff.mp hpos
    exact ⟨a, ha, (resultRowMatch_iff _ _ _).mp hp⟩

/-- Witness for C8: a concrete report by a worker that holds no claim on the
action fails with BOT_ACTION_NOT_CLAIMED_BY_WORKER and no action row moves. -/
theorem C8_witness :
    internal_v2_bot_action_result hmacAlways 0 dbC5 "k" "0" "ab" 5
        ⟨"w", "succeeded", none, none⟩ =
      (.error (.Conflict "BOT_ACTION_NOT_CLAIMED_BY_WORKER"), dbC5b) ∧
    dbC5b.bot_actions = dbC5.bot_actions :=
  (C8_theorem hmacAlways 0 dbC5 "k" "0" "ab" 5 ⟨"w", "succeeded", none, none⟩
    ⟨1, 0, "ab"⟩ dbC5b (by decide) (.inl (by decide)) (by decide)).1 (by decide)

/-- Claim C9 counterexample: a result report carrying the outcome value
"success" — one of the three values the claim says the endpoint accepts —
is rejected by the outcome validation (its uppercase form "SUCCESS" is not
among SUCCEEDED / RETRYABLE_FAILURE / FAILED). -/
theorem C9_counterexample :
    (internal_v2_bot_action_result hmacAlways 0 dbC5 "k" "0" "ab" 5
        ⟨"w", "success", none, none⟩).1 =
      .error (.Validation "outcome must be SUCCEEDED, RETRYABLE_FAILURE, or FAILED") := by
  decide

/-- Claim C9 (amended): the outcome validation accepts exactly the values
whose ASCII uppercase form is SUCCEEDED, RETRYABLE_FAILURE or FAILED (so
e.g. "succeeded" passes but "success", "retryable-failure" and "failure"
do not): any request with such an outcome never receives the outcome
validation error, and any request with any other outcome is rejected with
exactly that validation error, unchanged state. -/
theorem C9_theorem (hmacEq : List Nat → Int → String → List Nat → Bool) (now : Int)
    (st : Db) (key ts sig : String) (action_id : Nat) (payload : BotActionResultRequest)
    (hw : ¬ trimModel payload.worker_id = "") :
    ((toUpperAscii payload.outcome = "SUCCEEDED" ∨
      toUpperAscii payload.outcome = "RETRYABLE_FAILURE" ∨
      toUpperAscii payload.outcome = "FAILED") →
      (internal_v2_bot_action_result hmacEq now st key ts sig action_id payload).1 ≠
        .error (.Validation "outcome must be SUCCEEDED, RETRYABLE_FAILURE, or FAILED")) ∧
    (¬ (toUpperAscii payload.outcome = "SUCCEEDED" ∨
      toUpperAscii payload.outcome = "RETRYABLE_FAILURE" ∨
      toUpperAscii payload.outcome = "FAILED") →
      internal_v2_bot_action_result hmacEq now st key ts sig action_id payload =
        (.error (.Validation "outcome must be SUCCEEDED, RETRYABLE_FAILURE, or FAILED"),
          st)) := by
  constructor
  · intro ho
    unfold internal_v2_bot_action_result
    rw [if_neg hw, if_neg (not_not_intro ho)]
    split
    · rename_i e st1 hA
      have he := internal_auth_and_replay_error_forbidden _ _ _ _ _ _ _ _ _ hA
      simp [he]
    · split
      · exact (bot_action_result_update_cases _ _ _ _ _).2.2 _
      · split
        · exact (bot_action_result_update_cases _ _ _ _ _).2.2 _
        · exact (bot_action_result_update_cases _ _ _ _ _).2.2 _
  · intro hno
    unfold internal_v2_bot_action_result
    rw [if_neg hw, if_pos hno]

/-- Witness for C9: the accepted spelling "succeeded" passes the outcome
validation (the request then fails later with an ownership conflict, not
the validation error). -/
theorem C9_witness :
    (internal_v2_bot_action_result hmacAlways 0 dbC5 "k" "0" "ab" 5
        ⟨"w", "succeeded", none, none⟩).1 ≠
      .error (.Validation "outcome must be SUCCEEDED, RETRYABLE_FAILURE, or FAILED") :=
  (C9_theorem hmacAlways 0 dbC5 "k" "0" "ab" 5 ⟨"w", "succeeded", none, none⟩
    (by decide)).1 (.inl (by decide))

/-! ### `services/jobs.rs`: the deadline sweeper -/

/-- One loop iteration of `process_due_challenges`: the conditional update
transitioning a still-PENDING challenge to EXEMPT (author whitelisted for
the repo) or TIMED_OUT_CLOSED, followed by one audit event when a row was
affected.  Note: no bot action of any kind is written. -/
def process_due_challenges_step (now : Int) (st : Db) (challenge_id : Nat) : Db :=
  let affected := st.pr_challenges.countP (fun c =>
    c.id == challenge_id && c.status == "PENDING")
  let challenges1 := st.pr_challenges.map (fun c =>
    if c.id == challenge_id && c.status == "PENDING" then
      { c with
        status :=
          if st.repo_whitelist.any (fun w =>
              w.github_repo_id == c.github_repo_id &&
              w.github_user_id == c.github_pr_author_id) then "EXEMPT"
          else "TIMED_OUT_CLOSED"
        updated_at := now }
    else c)
  let st1 := { st with pr_challenges := challenges1 }
  if affected > 0 then
    { st1 with audit_events := st1.audit_events ++
        [⟨"CHALLENGE_DEADLINE_SWEEP", "challenge", decimalString challenge_id⟩] }
  else st1

/-- `process_due_challenges`: select up to 500 PENDING challenges past their
deadline, oldest deadline first, and run the transition step on each. -/
def process_due_challenges (now : Int) (st : Db) : Db :=
  let due := ((sortByKey (fun c => c.deadline_at)
    (st.pr_challenges.filter (fun c =>
      c.status == "PENDING" && decide (c.deadline_at ≤ now)))).take 500).map
        (fun c => c.id)
  due.foldl (fun acc cid => process_due_challenges_step now acc cid) st

/-- Overdue PENDING challenge of a non-whitelisted author. -/
def chalDueC2 : ChallengeRow :=
  ⟨1, "t1", 10, "o/r1", 1, 7, "alice", "sha", 10, 50, "PENDING", none, 0⟩

/-- Overdue PENDING challenge whose author is on the repo whitelist. -/
def chalWhiteC2 : ChallengeRow :=
  ⟨2, "t2", 11, "o/r2", 2, 8, "bob", "sha", 10, 60, "PENDING", none, 0⟩

def dbC2 : Db :=
  { emptyDb with
    pr_challenges := [chalDueC2, chalWhiteC2]
    repo_whitelist := [⟨11, 8⟩] }

/-- Claim C2 evaluated at the failing input: a sweep tick at time 100 over
two overdue PENDING challenges transitions the non-whitelisted one to
TIMED_OUT_CLOSED and the whitelisted one to EXEMPT, records an audit event
per transition — and enqueues NO bot action at all (the bot_actions table
stays empty), although the claim and spec require exactly one close action
for the TIMED_OUT_CLOSED transition. -/
theorem C2_theorem :
    ((process_due_challenges 100 dbC2).pr_challenges.map (fun c => (c.id, c.status)) =
      [(1, "TIMED_OUT_CLOSED"), (2, "EXEMPT")]) ∧
    (process_due_challenges 100 dbC2).bot_actions = [] ∧
    (process_due_challenges 100 dbC2).audit_events.length = 2 := by
  decide

end Sitg
